import Mathlib

/-!
Verification of the tauri screenshot application front end
(`src/App.tsx` and `src/ImageEditor.tsx`), shallowly embedded in Lean.

Conventions of the embedding:
* JavaScript numbers are modelled as rationals (`ℚ`) wherever the code
  only performs exact arithmetic on them; the one place where division
  by zero matters (`getCoordinates`) is modelled with an explicit
  IEEE-style value type `JSNum` carrying infinities and NaN.
* React state is gathered into explicit state records; each event
  handler of the source becomes a function from state to state (plus,
  where the source performs an external call, an explicit effect value
  describing that call).
* External collaborators (the Tauri `invoke` calls, the save/open
  dialogs, `getDisplayMedia`) are modelled as parameters: their results
  are passed as arguments to the handler that awaits them.
-/

namespace Screenshot

/-- The four capture modes of the radio group in `App.tsx`
(`type Mode = "fullscreen" | "window" | "area" | "record"`). -/
inductive Mode
  | fullscreen
  | window
  | area
  | record
deriving DecidableEq, Repr

/-- A rectangle in display coordinate space, as produced by
`react-image-crop` (`PixelCrop`): origin plus extent. -/
structure CropRect where
  x : ℚ
  y : ℚ
  width : ℚ
  height : ℚ
deriving DecidableEq, Repr

/-- A width/height pair (a coordinate space's extent). -/
structure Size where
  width : ℚ
  height : ℚ
deriving DecidableEq, Repr

/-- A raster image held by the application.  `captured id w h` is the
result of a `capture_screen`/`capture_window` invoke (the opaque base64
payload is abstracted to an identifier, the native dimensions are kept);
`cropped src region` is the image produced by `confirmCrop`, i.e. the
region `region` (in the source image's native pixel space) drawn out of
`src` onto a fresh canvas and re-encoded. -/
inductive RasterImage
  | captured (id : ℕ) (w h : ℚ)
  | cropped (src : RasterImage) (region : CropRect)
deriving DecidableEq, Repr

/-- Native width of a raster image: for a crop result, the canvas was
sized to `completedCrop.width * scaleX`, i.e. the native-space region
width. -/
def RasterImage.width : RasterImage → ℚ
  | .captured _ w _ => w
  | .cropped _ region => region.width

/-- Native height of a raster image (see `RasterImage.width`). -/
def RasterImage.height : RasterImage → ℚ
  | .captured _ _ h => h
  | .cropped _ region => region.height

/-- The React state of the `App` component (`App.tsx`, lines 27-50),
restricted to the fields the verified handlers read or write.  The two
refs that hold recording state are included (`mediaRecorderRef` as an
abstract handle identifier, `recordedChunksRef` as a list of abstract
chunk sizes). -/
structure AppState where
  image : Option RasterImage
  originalImage : Option RasterImage
  crop : Option CropRect
  completedCrop : Option CropRect
  mode : Mode
  status : String
  autoSave : Bool
  defaultPath : Option String
  isRecording : Bool
  mediaRecorder : Option ℕ
  recordedChunks : List ℕ
deriving DecidableEq, Repr

/-- `setMode` from a mode radio button (`App.tsx` lines 339-376): each
`onChange` handler calls exactly `setMode(m)` and nothing else. -/
def setMode (m : Mode) (s : AppState) : AppState :=
  { s with mode := m }

/-- The `useEffect` on `[mode]` (`App.tsx` lines 52-58): after a mode
change, source re-enumeration runs (`fetchWindows`/`fetchMonitors`).
Those handlers write only `windows`/`monitors`/`selectedWindowId`/
`selectedMonitorId`/`status` (on fetch error).  Of the fields of
`AppState` they can touch only `status`; the fetched lists and
selections are not tracked here, but the error status write is. -/
def modeEffect (fetchError : Option String) (s : AppState) : AppState :=
  match fetchError with
  | none => s
  | some e =>
      if s.mode = Mode.window then
        { s with status := "Error fetching windows: " ++ e }
      else
        { s with status := "Error fetching monitors: " ++ e }

/-- A full mode switch as the UI performs it: `setMode` followed by the
`useEffect` re-enumeration. -/
def switchMode (m : Mode) (fetchError : Option String) (s : AppState) : AppState :=
  modeEffect fetchError (setMode m s)

/-- `confirmCrop` (`App.tsx` lines 137-175).  The handler runs only when
`completedCrop`, `imgRef.current` and `originalImage` are all present;
`imgRef` renders `originalImage`, so its `naturalWidth`/`naturalHeight`
are `originalImage`'s native dimensions and its `width`/`height` are the
on-screen display size, passed here as `display`.  The scale factors are
`naturalWidth / width` and `naturalHeight / height`; the crop rect is
mapped through them and the cropped region replaces the held image.
The `autoSave` branch calls `saveImage(base64)`; that call is modelled
separately (`saveImage`), and `cropSavedImage` below exposes which image
it would receive. -/
def confirmCrop (display : Size) (s : AppState) : AppState :=
  match s.completedCrop, s.originalImage with
  | some c, some orig =>
      let scaleX := orig.width / display.width
      let scaleY := orig.height / display.height
      let region : CropRect :=
        { x := c.x * scaleX
          y := c.y * scaleY
          width := c.width * scaleX
          height := c.height * scaleY }
      { s with
          image := some (RasterImage.cropped orig region)
          originalImage := none
          status := "Cropped!" }
  | _, _ => s

/-- An external call performed by a handler: persisting an artifact via
the Tauri backend (`invoke("save_image", ...)` / `invoke("save_video",
...)`), or calling `stop()` on the active `MediaRecorder`. -/
inductive Effect
  | persistImage (path : String) (img : RasterImage)
  | persistVideo (path : String) (chunks : List ℕ)
  | recorderStop (handle : ℕ)
deriving DecidableEq, Repr

/-- `startRecording` (`App.tsx` lines 177-215), success path: the
`getDisplayMedia` call succeeded and yielded a stream; a fresh
`MediaRecorder` (modelled by the fresh handle `newHandle`) is stored in
`mediaRecorderRef`, the chunk buffer is reset, and the recording flag
and status are set.  The source performs no check of `isRecording`
before doing any of this. -/
def startRecording (newHandle : ℕ) (s : AppState) : AppState :=
  { s with
      mediaRecorder := some newHandle
      recordedChunks := []
      isRecording := true
      status := "Recording..." }

/-- `startRecording` failure path (`getDisplayMedia` rejected): only the
status message changes. -/
def startRecordingFailed (err : String) (s : AppState) : AppState :=
  { s with status := "Recording Error: " ++ err }

/-- `stopRecording` (`App.tsx` lines 217-221): when a recorder handle
exists and `isRecording` is set, `mediaRecorderRef.current.stop()` is
called; otherwise nothing happens.  The handler itself changes no state
(state changes happen later in the async `onstop` callback); the
returned effect list records whether `stop()` was called. -/
def stopRecording (s : AppState) : AppState × List Effect :=
  match s.mediaRecorder with
  | some h => if s.isRecording then (s, [Effect.recorderStop h]) else (s, [])
  | none => (s, [])

/-- The record-mode button row (`App.tsx` lines 411-430): in record
mode, exactly one of the two buttons is rendered — Start Recording when
`isRecording` is false, Stop Recording when it is true.  The function
gives the handler that the rendered button dispatches. -/
inductive RecordButton
  | start
  | stop
deriving DecidableEq, Repr

/-- Which record button the UI renders (see `RecordButton`). -/
def renderedRecordButton (s : AppState) : RecordButton :=
  if s.isRecording then RecordButton.stop else RecordButton.start

/-- `saveImage` (`App.tsx` lines 272-305).  `imgArg` is the optional
`imgData` argument, `timestamp` the formatted timestamp string, and
`chosen` the result of the `save(...)` dialog (`none` = the user
cancelled the chooser).  When `autoSave` is on and a default path is
configured the dialog is skipped.  Returns the new state and the
persistence calls made. -/
def saveImage (chosen : Option String) (timestamp : String)
    (imgArg : Option RasterImage) (s : AppState) : AppState × List Effect :=
  match imgArg.orElse (fun _ => s.image) with
  | none => (s, [])
  | some dataToSave =>
      let modeName :=
        match s.mode with
        | Mode.fullscreen => "fullscreen"
        | Mode.window => "window"
        | Mode.area => "area"
        | Mode.record => "record"
      let filename := "screenshot_" ++ modeName ++ "_" ++ timestamp ++ ".png"
      let path : Option String :=
        match s.defaultPath with
        | some dp => if s.autoSave then some (dp ++ "/" ++ filename) else chosen
        | none => chosen
      match path with
      | some p =>
          ({ s with status := "Saved to " ++ p }, [Effect.persistImage p dataToSave])
      | none => (s, [])

/-- `saveVideo` (`App.tsx` lines 223-248), same shape as `saveImage`:
`bytes` is the chunk data handed over by the `onstop` callback, `chosen`
the save-dialog result (`none` = cancelled). -/
def saveVideo (chosen : Option String) (timestamp : String)
    (bytes : List ℕ) (s : AppState) : AppState × List Effect :=
  let filename := "recording_" ++ timestamp ++ ".webm"
  let path : Option String :=
    match s.defaultPath with
    | some dp => if s.autoSave then some (dp ++ "/" ++ filename) else chosen
    | none => chosen
  match path with
  | some p =>
      ({ s with status := "Video saved to " ++ p }, [Effect.persistVideo p bytes])
  | none => (s, [])

/-! ## ImageEditor (`ImageEditor.tsx`): annotation canvas and compositing -/

/-- A colour with premultiplied alpha, components in `[0,1]`.  Canvas 2D
compositing is specified on premultiplied colours, which keeps the
operators division-free. -/
structure RGBA where
  r : ℚ
  g : ℚ
  b : ℚ
  a : ℚ
deriving DecidableEq, Repr

/-- The fully transparent pixel (a cleared canvas pixel). -/
def RGBA.transparent : RGBA := ⟨0, 0, 0, 0⟩

/-- Canvas `source-over` compositing on premultiplied colours:
`result = src + dst·(1 − src.a)`. -/
def sourceOver (src dst : RGBA) : RGBA :=
  ⟨src.r + dst.r * (1 - src.a),
   src.g + dst.g * (1 - src.a),
   src.b + dst.b * (1 - src.a),
   src.a + dst.a * (1 - src.a)⟩

/-- Canvas `destination-out` compositing on premultiplied colours:
`result = dst·(1 − src.a)` — the destination is kept only where the
source is absent; the source's colour channels play no part. -/
def destinationOut (src dst : RGBA) : RGBA :=
  ⟨dst.r * (1 - src.a),
   dst.g * (1 - src.a),
   dst.b * (1 - src.a),
   dst.a * (1 - src.a)⟩

/-- The drawing tool (`ImageEditor.tsx` line 16). -/
inductive Tool
  | pen
  | eraser
deriving DecidableEq, Repr

/-- An RGB colour as parsed from the hex `color` state
(`parseInt(color.slice(..), 16)` in `startDrawing`), channels 0-255. -/
structure RGB where
  r : ℕ
  g : ℕ
  b : ℕ
deriving DecidableEq, Repr

/-- The context style fixed at `startDrawing` for the current stroke:
tool, pen colour, pen opacity, line width. -/
structure StrokeStyle where
  tool : Tool
  color : RGB
  opacity : ℚ
  lineWidth : ℚ
deriving DecidableEq, Repr

/-- The premultiplied source colour a stroke paints with.  For the pen,
`strokeStyle = rgba(r, g, b, opacity)`; for the eraser the source set in
the code is `rgba(0,0,0,1)` and the composite operation is
`destination-out`, so only its alpha (1) matters. -/
def strokeSource (st : StrokeStyle) : RGBA :=
  match st.tool with
  | Tool.pen =>
      ⟨(st.color.r / 255 : ℚ) * st.opacity,
       (st.color.g / 255 : ℚ) * st.opacity,
       (st.color.b / 255 : ℚ) * st.opacity,
       st.opacity⟩
  | Tool.eraser => ⟨0, 0, 0, 1⟩

/-- A point in the canvas's native pixel space. -/
structure Point where
  x : ℚ
  y : ℚ
deriving DecidableEq, Repr

/-- One `ctx.stroke()` call as recorded on the annotation canvas: the
context style in force and the path that was stroked. -/
structure PaintOp where
  style : StrokeStyle
  path : List Point
deriving DecidableEq, Repr

/-- Pixel value of the annotation canvas obtained by replaying the paint
ops (in issue order) over a transparent surface.  `covers op` is the
rasterisation oracle: whether the stroked path of `op` (with its line
width, round caps/joins) covers the pixel under consideration —
rasterisation geometry is kept abstract, compositing is exact. -/
def canvasPixel (covers : PaintOp → Bool) (ops : List PaintOp) : RGBA :=
  ops.foldl
    (fun acc op =>
      if covers op then
        match op.style.tool with
        | Tool.pen => sourceOver (strokeSource op.style) acc
        | Tool.eraser => destinationOut (strokeSource op.style) acc
      else acc)
    RGBA.transparent

/-- The React/ref state of the `ImageEditor` component: the base image
(the `imageData` prop, untouched by every handler below), the drawing
flag, the current tool settings, the context's current path (built by
`moveTo`/`lineTo`), the style fixed at `startDrawing`, and the
annotation canvas content as the list of paint ops applied to it. -/
structure EditorState where
  baseImage : ℕ
  dimensions : Size
  isDrawing : Bool
  tool : Tool
  color : RGB
  opacity : ℚ
  lineWidth : ℚ
  currentPath : List Point
  currentStyle : StrokeStyle
  canvas : List PaintOp
deriving DecidableEq, Repr

/-- `startDrawing` (`ImageEditor.tsx` lines 71-96): sets the drawing
flag, begins a fresh path at the event's canvas coordinates, and fixes
the stroke style (line width; composite op and strokeStyle according to
the tool) on the context. -/
def startDrawing (p : Point) (s : EditorState) : EditorState :=
  { s with
      isDrawing := true
      currentPath := [p]
      currentStyle :=
        { tool := s.tool, color := s.color,
          opacity := s.opacity, lineWidth := s.lineWidth } }

/-- `draw` (`ImageEditor.tsx` lines 98-108): when not drawing, nothing
happens; otherwise `lineTo` extends the context's current path and
`stroke()` paints the whole current path with the current style onto the
canvas. -/
def draw (p : Point) (s : EditorState) : EditorState :=
  if s.isDrawing then
    let newPath := s.currentPath ++ [p]
    { s with
        currentPath := newPath
        canvas := s.canvas ++ [{ style := s.currentStyle, path := newPath }] }
  else s

/-- `stopDrawing` (`ImageEditor.tsx` lines 110-118): a no-op unless
drawing; otherwise clears the drawing flag and calls `closePath()`
(which ends the current subpath without painting). -/
def stopDrawing (s : EditorState) : EditorState :=
  if s.isDrawing then { s with isDrawing := false } else s

/-- `clearCanvas` (`ImageEditor.tsx` lines 140-146):
`clearRect(0, 0, canvas.width, canvas.height)` — every pixel of the
annotation canvas becomes transparent, i.e. the replayed op list is
emptied.  No other field is touched: in particular neither `isDrawing`
nor the context's current path. -/
def clearCanvas (s : EditorState) : EditorState :=
  { s with canvas := [] }

/-- The output of `getMergedImage` (`ImageEditor.tsx` lines 46-69)
before PNG encoding: an export canvas of the base image's dimensions
onto which the base image is drawn first and the annotation canvas
second (both with the default `source-over`).  `toDataURL` is a
deterministic function of this data, so byte-level comparison of the
exported PNG reduces to equality of `Merged` values. -/
structure Merged where
  baseImage : ℕ
  dimensions : Size
  layerOps : List PaintOp
deriving DecidableEq, Repr

/-- `getMergedImage` (`ImageEditor.tsx` lines 46-69) as a state
transformer: it reads `imageData`, `dimensions` and the annotation
canvas, draws them onto a freshly created export canvas and resolves
with its PNG encoding; no component state or ref is written. -/
def getMergedImage (s : EditorState) : Merged × EditorState :=
  (⟨s.baseImage, s.dimensions, s.canvas⟩, s)

/-- Pixel value of the merged export at a pixel: the base image is drawn
onto the blank export canvas (giving `basePx` at this pixel), then the
annotation canvas is drawn over it with `source-over`. -/
def mergedPixel (basePx : RGBA) (covers : PaintOp → Bool) (m : Merged) : RGBA :=
  sourceOver (canvasPixel covers m.layerOps) basePx

/-! ## JavaScript numbers where division by zero matters

`getCoordinates` divides by `rect.width`/`rect.height`, the rendered
element's dimensions, with no guard.  To state faithfully what the code
does when those are zero, the arithmetic of that function is modelled
with an IEEE-style value type: finite values are exact rationals, plus
the two infinities and NaN (in JavaScript, `x / 0` is `±Infinity` for
`x ≠ 0` and `NaN` for `x = 0`; no exception is thrown). -/

/-- A JavaScript number: a finite value (kept exact as a rational),
positive or negative infinity, or NaN. -/
inductive JSNum
  | fin (q : ℚ)
  | posInf
  | negInf
  | nan
deriving DecidableEq, Repr

/-- Whether a JavaScript number is finite. -/
def JSNum.isFinite : JSNum → Bool
  | .fin _ => true
  | _ => false

/-- JavaScript division.  `a / 0` is `+Infinity`, `-Infinity` or `NaN`
according to the sign of `a` (a positive-zero divisor, the value DOM
layout produces); infinities and NaN follow IEEE 754. -/
def JSNum.div : JSNum → JSNum → JSNum
  | .nan, _ => .nan
  | _, .nan => .nan
  | .fin a, .fin b =>
      if b = 0 then
        if a > 0 then .posInf else if a < 0 then .negInf else .nan
      else .fin (a / b)
  | .fin _, .posInf => .fin 0
  | .fin _, .negInf => .fin 0
  | .posInf, .fin b => if b ≥ 0 then .posInf else .negInf
  | .negInf, .fin b => if b ≥ 0 then .negInf else .posInf
  | .posInf, .posInf => .nan
  | .posInf, .negInf => .nan
  | .negInf, .posInf => .nan
  | .negInf, .negInf => .nan

/-- JavaScript multiplication (IEEE 754: `0 · ±Infinity = NaN`, NaN
propagates). -/
def JSNum.mul : JSNum → JSNum → JSNum
  | .nan, _ => .nan
  | _, .nan => .nan
  | .fin a, .fin b => .fin (a * b)
  | .fin a, .posInf => if a > 0 then .posInf else if a < 0 then .negInf else .nan
  | .fin a, .negInf => if a > 0 then .negInf else if a < 0 then .posInf else .nan
  | .posInf, .fin b => if b > 0 then .posInf else if b < 0 then .negInf else .nan
  | .negInf, .fin b => if b > 0 then .negInf else if b < 0 then .posInf else .nan
  | .posInf, .posInf => .posInf
  | .posInf, .negInf => .negInf
  | .negInf, .posInf => .negInf
  | .negInf, .negInf => .posInf

/-- The `getBoundingClientRect()` result for the canvas element: its
on-screen position and rendered (display) size, finite DOM values. -/
structure DomRect where
  left : ℚ
  top : ℚ
  width : ℚ
  height : ℚ
deriving DecidableEq, Repr

/-- `getCoordinates` (`ImageEditor.tsx` lines 120-138): maps a pointer
event's client coordinates into the canvas's native pixel space using
`scaleX = canvas.width / rect.width` and the analogous `scaleY`, as
`((clientX - rect.left) * scaleX, (clientY - rect.top) * scaleY)`.
There is no guard on the display size: the division is performed
unconditionally and the function always returns a pair of numbers,
never an error. -/
def getCoordinates (clientX clientY : ℚ) (rect : DomRect)
    (canvasWidth canvasHeight : ℚ) : JSNum × JSNum :=
  let scaleX := JSNum.div (JSNum.fin canvasWidth) (JSNum.fin rect.width)
  let scaleY := JSNum.div (JSNum.fin canvasHeight) (JSNum.fin rect.height)
  (JSNum.mul (JSNum.fin (clientX - rect.left)) scaleX,
   JSNum.mul (JSNum.fin (clientY - rect.top)) scaleY)

/-! ## Sample states used by concrete counterexamples and witnesses -/

/-- The initial React state of `App` (`useState` initialisers,
`App.tsx` lines 27-50). -/
def app0 : AppState :=
  { image := none
    originalImage := none
    crop := none
    completedCrop := none
    mode := Mode.fullscreen
    status := ""
    autoSave := false
    defaultPath := none
    isRecording := false
    mediaRecorder := none
    recordedChunks := [] }

/-- An area-mode state holding a captured image, a pending crop
selection and a completed selection. -/
def preSwitch : AppState :=
  { app0 with
      mode := Mode.area
      image := some (RasterImage.captured 0 1920 1080)
      originalImage := some (RasterImage.captured 1 1920 1080)
      crop := some ⟨1, 2, 3, 4⟩
      completedCrop := some ⟨5, 6, 7, 8⟩ }

/-- The state after switching the mode away from area (re-enumeration
succeeding). -/
def postSwitch : AppState := switchMode Mode.fullscreen none preSwitch

/-- An area-mode state matching end-to-end scenario B: a 1920x1080
capture displayed at 960x540 with completed crop rect (100,50,400,300). -/
def scenarioB : AppState :=
  { app0 with
      mode := Mode.area
      originalImage := some (RasterImage.captured 7 1920 1080)
      completedCrop := some ⟨100, 50, 400, 300⟩ }

/-- An area-mode state whose completed crop selection has zero area. -/
def zeroAreaCrop : AppState :=
  { app0 with
      mode := Mode.area
      originalImage := some (RasterImage.captured 3 1920 1080)
      completedCrop := some ⟨10, 20, 0, 0⟩ }

/-- A record-mode state with an active recording (handle 0, one
buffered chunk). -/
def recState : AppState :=
  { app0 with
      mode := Mode.record
      isRecording := true
      mediaRecorder := some 0
      recordedChunks := [5] }

/-- A state holding a captured image with auto-save off and a default
directory configured, so that saving goes through the dialog. -/
def c8State : AppState :=
  { app0 with
      image := some (RasterImage.captured 4 800 600)
      autoSave := false
      defaultPath := some "/tmp" }

/-- The default pen stroke style of the editor: red, opacity 1, line
width 5 (the `useState` initialisers of `ImageEditor.tsx`). -/
def penStyleSample : StrokeStyle := ⟨Tool.pen, ⟨255, 0, 0⟩, 1, 5⟩

/-- A painted pen stroke (red, opaque) along two points. -/
def penOpSample : PaintOp := ⟨penStyleSample, [⟨1, 1⟩, ⟨2, 2⟩]⟩

/-- A painted eraser stroke along the same two points. -/
def eraserOpSample : PaintOp := ⟨⟨Tool.eraser, ⟨255, 0, 0⟩, 1, 5⟩, [⟨1, 1⟩, ⟨2, 2⟩]⟩

/-- The editor's initial state over a 100x100 base image. -/
def editor0 : EditorState :=
  { baseImage := 0
    dimensions := ⟨100, 100⟩
    isDrawing := false
    tool := Tool.pen
    color := ⟨255, 0, 0⟩
    opacity := 1
    lineWidth := 5
    currentPath := []
    currentStyle := penStyleSample
    canvas := [] }

/-- An editor state in the middle of a pen stroke: the pointer is down,
two points are on the current path, and one `stroke()` has painted. -/
def midStroke : EditorState :=
  { editor0 with
      isDrawing := true
      currentPath := [⟨1, 1⟩, ⟨2, 2⟩]
      currentStyle := penStyleSample
      canvas := [penOpSample] }

/-! ## Claims -/

/-- Claim C1, counterexample: switching the capture mode does NOT
discard held capture state.  From an area-mode state holding a captured
image, an original image, a pending crop and a completed crop, switching
to fullscreen leaves all four in place, and a subsequent save persists
the pre-switch image. -/
theorem c1_counterexample :
    postSwitch.image = some (RasterImage.captured 0 1920 1080) ∧
    postSwitch.originalImage = some (RasterImage.captured 1 1920 1080) ∧
    postSwitch.crop = some ⟨1, 2, 3, 4⟩ ∧
    postSwitch.completedCrop = some ⟨5, 6, 7, 8⟩ ∧
    (saveImage (some "shot.png") "t" none postSwitch).2 =
      [Effect.persistImage "shot.png" (RasterImage.captured 0 1920 1080)] := by
  refine ⟨rfl, rfl, rfl, rfl, rfl⟩

/-- Claim C1 (amended): switching the capture mode changes only the mode
itself (and, on a failed re-enumeration, the status message); the held
image, original image, crop selection and completed crop all persist
across the switch, so an export after a mode switch still carries the
pre-switch image. -/
theorem c1_switchMode_preserves_capture_state (m : Mode) (err : Option String)
    (s : AppState) :
    (switchMode m err s).image = s.image ∧
    (switchMode m err s).originalImage = s.originalImage ∧
    (switchMode m err s).crop = s.crop ∧
    (switchMode m err s).completedCrop = s.completedCrop ∧
    (switchMode m err s).mode = m := by
  cases err with
  | none => exact ⟨rfl, rfl, rfl, rfl, rfl⟩
  | some e =>
      by_cases hm : m = Mode.window <;>
        simp [switchMode, modeEffect, setMode, hm]

/-- Claim C2: confirming a crop maps the display-space rect to native
pixel space with the independent factors nativeWidth/displayWidth and
nativeHeight/displayHeight, and in particular scenario B (1920x1080
native rendered at 960x540, rect (100,50,400,300)) yields the native
region of size 800x600 at origin (200,100). -/
theorem c2_confirmCrop_independent_scale_factors :
    (∀ (s : AppState) (display : Size) (c : CropRect) (orig : RasterImage),
        s.completedCrop = some c → s.originalImage = some orig →
        display.width ≠ 0 → display.height ≠ 0 →
        (confirmCrop display s).image =
          some (RasterImage.cropped orig
            ⟨c.x * (orig.width / display.width),
             c.y * (orig.height / display.height),
             c.width * (orig.width / display.width),
             c.height * (orig.height / display.height)⟩)) ∧
    (∀ s : AppState,
        s.completedCrop = some ⟨100, 50, 400, 300⟩ →
        s.originalImage = some (RasterImage.captured 7 1920 1080) →
        (confirmCrop ⟨960, 540⟩ s).image =
          some (RasterImage.cropped (RasterImage.captured 7 1920 1080)
            ⟨200, 100, 800, 600⟩)) := by
  constructor
  · intro s display c orig h1 h2 _ _
    simp only [confirmCrop, h1, h2]
  · intro s h1 h2
    simp only [confirmCrop, h1, h2, RasterImage.width, RasterImage.height]
    norm_num

/-- Claim C2, witness: both parts of the theorem applied to the concrete
scenario-B state. -/
theorem c2_witness :
    (confirmCrop ⟨960, 540⟩ scenarioB).image =
      some (RasterImage.cropped (RasterImage.captured 7 1920 1080)
        ⟨100 * (1920 / 960), 50 * (1080 / 540),
         400 * (1920 / 960), 300 * (1080 / 540)⟩) ∧
    (confirmCrop ⟨960, 540⟩ scenarioB).image =
      some (RasterImage.cropped (RasterImage.captured 7 1920 1080)
        ⟨200, 100, 800, 600⟩) :=
  ⟨c2_confirmCrop_independent_scale_factors.1 scenarioB ⟨960, 540⟩
      ⟨100, 50, 400, 300⟩ (RasterImage.captured 7 1920 1080) rfl rfl
      (by norm_num) (by norm_num),
   c2_confirmCrop_independent_scale_factors.2 scenarioB rfl rfl⟩

/-- With a zero divisor, the JavaScript quotient is an infinity or NaN,
and multiplying a finite value by it never yields a finite value. -/
theorem jsnum_mul_div_zero_not_finite (a c : ℚ) :
    (JSNum.mul (JSNum.fin a) (JSNum.div (JSNum.fin c) (JSNum.fin 0))).isFinite
      = false := by
  have h0 : JSNum.div (JSNum.fin c) (JSNum.fin 0) =
      if c > 0 then JSNum.posInf else if c < 0 then JSNum.negInf else JSNum.nan := by
    simp [JSNum.div]
  rw [h0]
  rcases lt_trichotomy c 0 with hc | hc | hc <;>
    rcases lt_trichotomy a 0 with ha | ha | ha <;>
      simp [JSNum.mul, JSNum.isFinite, hc, ha, not_lt_of_lt, lt_asymm, le_of_eq]

/-- Claim C3, counterexample: with a display rect of zero width and
height, the coordinate mapping is still executed — the divisions by zero
are performed, yielding (Infinity, Infinity), which is returned as the
pointer's canvas coordinates; no GeometryError (or any error) is
signalled. -/
theorem c3_counterexample :
    getCoordinates 5 7 ⟨0, 0, 0, 0⟩ 100 100 = (JSNum.posInf, JSNum.posInf) ∧
    JSNum.isFinite JSNum.posInf = false := by
  constructor
  · show (JSNum.mul (JSNum.fin (5 - 0)) (JSNum.div (JSNum.fin 100) (JSNum.fin 0)),
        JSNum.mul (JSNum.fin (7 - 0)) (JSNum.div (JSNum.fin 100) (JSNum.fin 0))) =
      (JSNum.posInf, JSNum.posInf)
    norm_num [JSNum.div, JSNum.mul]
  · rfl

/-- Claim C3 (amended): the code has no zero-size guard and no error
path: with a zero display width the division by zero is performed and
the returned x coordinate is non-finite (Infinity or NaN), and likewise
for a zero display height and the y coordinate. -/
theorem c3_zero_display_division_executed (clientX clientY l t w h cw ch : ℚ) :
    ((getCoordinates clientX clientY ⟨l, t, 0, h⟩ cw ch).1).isFinite = false ∧
    ((getCoordinates clientX clientY ⟨l, t, w, 0⟩ cw ch).2).isFinite = false :=
  ⟨jsnum_mul_div_zero_not_finite (clientX - l) cw,
   jsnum_mul_div_zero_not_finite (clientY - t) ch⟩

/-- Claim C4, counterexample: an eraser stroke drawn over a pen stroke
does empty the annotation layer at the covered pixel, but the flattened
output there is the base pixel, not transparency: over an opaque white
base the merged pixel stays opaque white (alpha 1), because the eraser's
destination-out pass runs on the separate annotation canvas before that
canvas is composited over the untouched base image. -/
theorem c4_counterexample :
    canvasPixel (fun _ => true) [penOpSample, eraserOpSample] = RGBA.transparent ∧
    mergedPixel ⟨1, 1, 1, 1⟩ (fun _ => true) ⟨0, ⟨100, 100⟩, [penOpSample, eraserOpSample]⟩
      = ⟨1, 1, 1, 1⟩ ∧
    (mergedPixel ⟨1, 1, 1, 1⟩ (fun _ => true) ⟨0, ⟨100, 100⟩, [penOpSample, eraserOpSample]⟩).a
      ≠ 0 := by
  refine ⟨?_, ?_, ?_⟩ <;>
    norm_num [canvasPixel, mergedPixel, penOpSample, eraserOpSample, penStyleSample,
      strokeSource, sourceOver, destinationOut, RGBA.transparent]

/-- Claim C4 (amended): an eraser stroke removes, within its path, all
previously drawn annotation pixels — independently of its nominal colour,
since destination-out uses only the source alpha, which the code fixes
at 1 — but it does not remove base-image pixels: at every pixel the
eraser covers, the flattened output equals the base image's pixel. -/
theorem c4_eraser_erases_layer_not_base
    (covers : PaintOp → Bool) (ops : List PaintOp) (st : StrokeStyle)
    (path : List Point) (basePx : RGBA) (baseId : ℕ) (dims : Size)
    (htool : st.tool = Tool.eraser) (hcov : covers ⟨st, path⟩ = true) :
    canvasPixel covers (ops ++ [⟨st, path⟩]) = RGBA.transparent ∧
    mergedPixel basePx covers ⟨baseId, dims, ops ++ [⟨st, path⟩]⟩ = basePx := by
  have h1 : canvasPixel covers (ops ++ [⟨st, path⟩]) = RGBA.transparent := by
    simp only [canvasPixel, List.foldl_append, List.foldl_cons, List.foldl_nil,
      hcov, if_true, htool, strokeSource, destinationOut, RGBA.transparent]
    simp
  refine ⟨h1, ?_⟩
  simp only [mergedPixel, h1]
  simp [sourceOver, RGBA.transparent]

/-- Claim C4, witness: the amended theorem at a concrete pen-then-eraser
op list over an opaque red base pixel. -/
theorem c4_witness :
    canvasPixel (fun _ => true) ([penOpSample] ++ [⟨⟨Tool.eraser, ⟨255, 0, 0⟩, 1, 5⟩, [⟨1, 1⟩, ⟨2, 2⟩]⟩])
      = RGBA.transparent ∧
    mergedPixel ⟨1, 0, 0, 1⟩ (fun _ => true)
        ⟨0, ⟨100, 100⟩, [penOpSample] ++ [⟨⟨Tool.eraser, ⟨255, 0, 0⟩, 1, 5⟩, [⟨1, 1⟩, ⟨2, 2⟩]⟩]⟩
      = ⟨1, 0, 0, 1⟩ :=
  c4_eraser_erases_layer_not_base (fun _ => true) [penOpSample]
    ⟨Tool.eraser, ⟨255, 0, 0⟩, 1, 5⟩ [⟨1, 1⟩, ⟨2, 2⟩] ⟨1, 0, 0, 1⟩ 0 ⟨100, 100⟩
    rfl rfl

/-- Claim C5: flattening twice with no stroke mutation in between is
deterministic — the first call leaves the surface state untouched, and
the second call over that state produces exactly the same merged output
(hence byte-identical PNG bytes, the encoder being a function of the
merged data). -/
theorem c5_flatten_deterministic (s : EditorState) :
    (getMergedImage (getMergedImage s).2).1 = (getMergedImage s).1 ∧
    (getMergedImage s).2 = s :=
  ⟨rfl, rfl⟩

/-- Claim C6, counterexample: confirming a zero-area crop is not a
no-op.  From an area-mode state holding a 1920x1080 original and the
zero-area completed rect (10,20,0,0), confirmCrop replaces the held
image with a zero-width crop result and discards the original image. -/
theorem c6_counterexample :
    (confirmCrop ⟨960, 540⟩ zeroAreaCrop).image ≠ zeroAreaCrop.image ∧
    (confirmCrop ⟨960, 540⟩ zeroAreaCrop).originalImage = none ∧
    zeroAreaCrop.originalImage = some (RasterImage.captured 3 1920 1080) ∧
    (confirmCrop ⟨960, 540⟩ zeroAreaCrop).image.map RasterImage.width = some 0 := by
  have him : (confirmCrop ⟨960, 540⟩ zeroAreaCrop).image =
      some (RasterImage.cropped (RasterImage.captured 3 1920 1080) ⟨20, 40, 0, 0⟩) := by
    norm_num [confirmCrop, zeroAreaCrop, app0, RasterImage.width, RasterImage.height]
  refine ⟨?_, rfl, rfl, ?_⟩
  · rw [him]
    simp [zeroAreaCrop, app0]
  · rw [him]
    simp [RasterImage.width]

/-- Claim C6 (amended): confirmCrop has no zero-area guard.  Whenever a
completed crop rect of zero area and an original image are present, the
crop is still performed: the original image is discarded, the held image
becomes a crop result of zero area, and the status is set to Cropped. -/
theorem c6_zero_area_crop_not_noop (s : AppState) (display : Size)
    (c : CropRect) (orig : RasterImage)
    (h1 : s.completedCrop = some c) (h2 : s.originalImage = some orig)
    (hz : c.width * c.height = 0) :
    (confirmCrop display s).originalImage = none ∧
    (confirmCrop display s).image.map (fun i => RasterImage.width i * RasterImage.height i)
      = some 0 ∧
    (confirmCrop display s).status = "Cropped!" := by
  have hoi : (confirmCrop display s).originalImage = none := by
    simp only [confirmCrop, h1, h2]
  have hst : (confirmCrop display s).status = "Cropped!" := by
    simp only [confirmCrop, h1, h2]
  have him : (confirmCrop display s).image =
      some (RasterImage.cropped orig
        ⟨c.x * (orig.width / display.width),
         c.y * (orig.height / display.height),
         c.width * (orig.width / display.width),
         c.height * (orig.height / display.height)⟩) := by
    simp only [confirmCrop, h1, h2]
  refine ⟨hoi, ?_, hst⟩
  rw [him]
  show some ((c.width * (orig.width / display.width)) *
      (c.height * (orig.height / display.height))) = some 0
  exact congrArg some (by
    linear_combination
      (orig.width / display.width) * (orig.height / display.height) * hz)

/-- Claim C6, witness: the amended theorem at the concrete zero-area
state. -/
theorem c6_witness :
    (confirmCrop ⟨960, 540⟩ zeroAreaCrop).originalImage = none ∧
    (confirmCrop ⟨960, 540⟩ zeroAreaCrop).image.map
        (fun i => RasterImage.width i * RasterImage.height i) = some 0 ∧
    (confirmCrop ⟨960, 540⟩ zeroAreaCrop).status = "Cropped!" :=
  c6_zero_area_crop_not_noop zeroAreaCrop ⟨960, 540⟩ ⟨10, 20, 0, 0⟩
    (RasterImage.captured 3 1920 1080) rfl rfl (by norm_num)

/-- Claim C7, counterexample: calling startRecording while a recording
is active is neither rejected nor a no-op: from a state recording with
handle 0 and one buffered chunk, it installs a fresh recorder (handle 1)
and empties the chunk buffer — the active recording's handle is
overwritten, and no error of any kind is raised (the success path has no
check of the recording flag). -/
theorem c7_counterexample :
    (startRecording 1 recState).mediaRecorder = some 1 ∧
    (startRecording 1 recState).mediaRecorder ≠ recState.mediaRecorder ∧
    (startRecording 1 recState).recordedChunks = [] ∧
    recState.recordedChunks = [5] ∧
    recState.isRecording = true := by
  refine ⟨rfl, ?_, rfl, rfl, rfl⟩
  simp [startRecording, recState, app0]

/-- Claim C7 (amended): startRecording itself has no AlreadyRecording
guard — invoked while recording it replaces the recorder handle and
resets the chunk buffer; at most one recording is reachable through the
interface only because the record-mode row renders the Stop button
instead of the Start button while the recording flag is set. -/
theorem c7_start_unguarded_ui_prevents_second (s : AppState) (n : ℕ)
    (hrec : s.isRecording = true) :
    (startRecording n s).mediaRecorder = some n ∧
    (startRecording n s).recordedChunks = [] ∧
    (startRecording n s).isRecording = true ∧
    renderedRecordButton s = RecordButton.stop := by
  refine ⟨rfl, rfl, rfl, ?_⟩
  simp [renderedRecordButton, hrec]

/-- Claim C7, witness: the amended theorem at the concrete recording
state. -/
theorem c7_witness :
    (startRecording 1 recState).mediaRecorder = some 1 ∧
    (startRecording 1 recState).recordedChunks = [] ∧
    (startRecording 1 recState).isRecording = true ∧
    renderedRecordButton recState = RecordButton.stop :=
  c7_start_unguarded_ui_prevents_second recState 1 rfl

/-- Claim C8: when the interactive destination chooser is the path taken
(auto-save off, or no default directory) and it returns cancelled, both
saveImage and saveVideo perform no persistence call and leave the whole
state — in particular the in-memory image — unchanged, so export can be
retried without recapturing. -/
theorem c8_cancelled_chooser_aborts_only_export (s : AppState) (ts : String)
    (imgArg : Option RasterImage) (bytes : List ℕ)
    (hns : s.autoSave = false ∨ s.defaultPath = none) :
    saveImage none ts imgArg s = (s, []) ∧
    saveVideo none ts bytes s = (s, []) := by
  constructor
  · unfold saveImage
    cases imgArg.orElse fun _ => s.image with
    | none => rfl
    | some d =>
        rcases hns with ha | hd
        · cases hdp : s.defaultPath <;> simp [hdp, ha]
        · simp [hd]
  · unfold saveVideo
    rcases hns with ha | hd
    · cases hdp : s.defaultPath <;> simp [hdp, ha]
    · simp [hd]

/-- Claim C8, witness: the theorem at a concrete state holding an image,
with auto-save off and the dialog cancelled. -/
theorem c8_witness :
    saveImage none "t" none c8State = (c8State, []) ∧
    saveVideo none "t" [1, 2] c8State = (c8State, []) :=
  c8_cancelled_chooser_aborts_only_export c8State "t" none [1, 2] (Or.inl rfl)

/-- Claim C9, counterexample: clearCanvas during an in-progress stroke
does not force-end it.  From a mid-stroke state, after clearCanvas the
drawing flag is still set and the context's path still holds the
pre-clear points, so the next draw event paints the old path extended by
the new point — the old stroke continues (and its pre-clear segments are
repainted). -/
theorem c9_counterexample :
    (clearCanvas midStroke).isDrawing = true ∧
    (clearCanvas midStroke).currentPath = [⟨1, 1⟩, ⟨2, 2⟩] ∧
    (draw ⟨3, 3⟩ (clearCanvas midStroke)).canvas =
      [⟨penStyleSample, [⟨1, 1⟩, ⟨2, 2⟩, ⟨3, 3⟩]⟩] := by
  refine ⟨rfl, rfl, ?_⟩
  simp [draw, clearCanvas, midStroke, editor0]

/-- Claim C9 (amended): clearCanvas discards every committed stroke
(the annotation canvas becomes empty) and never touches the base image;
it is safe to call at any time — but it does not end an in-progress
stroke: the drawing flag and current path survive, so a subsequent draw
event continues the pre-clear stroke, repainting its old segments
together with the new point. -/
theorem c9_clear_is_layer_only_and_keeps_stroke (s : EditorState) (p : Point)
    (hd : s.isDrawing = true) :
    (clearCanvas s).canvas = [] ∧
    (clearCanvas s).baseImage = s.baseImage ∧
    (clearCanvas s).isDrawing = s.isDrawing ∧
    (clearCanvas s).currentPath = s.currentPath ∧
    (draw p (clearCanvas s)).canvas = [⟨s.currentStyle, s.currentPath ++ [p]⟩] := by
  refine ⟨rfl, rfl, rfl, rfl, ?_⟩
  simp [draw, clearCanvas, hd]

/-- Claim C9, witness: the amended theorem at the concrete mid-stroke
state. -/
theorem c9_witness :
    (clearCanvas midStroke).canvas = [] ∧
    (clearCanvas midStroke).baseImage = midStroke.baseImage ∧
    (clearCanvas midStroke).isDrawing = midStroke.isDrawing ∧
    (clearCanvas midStroke).currentPath = midStroke.currentPath ∧
    (draw ⟨9, 9⟩ (clearCanvas midStroke)).canvas =
      [⟨midStroke.currentStyle, midStroke.currentPath ++ [⟨9, 9⟩]⟩] :=
  c9_clear_is_layer_only_and_keeps_stroke midStroke ⟨9, 9⟩ rfl

/-- Claim C10: when no recorder handle exists or the recording flag is
false, stopRecording calls nothing and changes nothing: the state is
returned as is and no recorder stop effect is emitted. -/
theorem c10_stop_noop_when_not_recording (s : AppState)
    (h : s.mediaRecorder = none ∨ s.isRecording = false) :
    stopRecording s = (s, []) := by
  unfold stopRecording
  rcases h with h | h
  · rw [h]
  · cases hm : s.mediaRecorder <;> simp [h]

/-- Claim C10, witness: the theorem at the initial state (no recorder,
not recording). -/
theorem c10_witness : stopRecording app0 = (app0, []) :=
  c10_stop_noop_when_not_recording app0 (Or.inl rfl)

end Screenshot
